import Mathlib

/-!
Verification of the PaperSearch repository (a Scopus paper-search and
open-access PDF download toolchain) against its natural-language
specification.

The Python sources are shallowly embedded: pure functions become Lean
functions; the filesystem and the HTTP layer become explicit state /
oracle parameters.  Character classes of Python regexes and `str`
methods are modelled on their ASCII fragment (the repository only ever
feeds them ASCII-producing API data).  Python truthiness tests
(`if x:`) on optional strings / ints / lists are modelled explicitly by
the `pyTruthy*` helpers below.
-/

/-- ASCII fragment of Python's whitespace class `\s`
(space, tab, newline, carriage return, vertical tab, form feed). -/
def pyIsSpace (c : Char) : Bool :=
  c = ' ' || c = '\t' || c = '\n' || c = '\r' || c = '\x0b' || c = '\x0c'

/-- Drop characters satisfying `p` from both ends of a character list;
models Python's `str.strip` family. -/
def pyStripChar (p : Char → Bool) (l : List Char) : List Char :=
  ((l.dropWhile p).reverse.dropWhile p).reverse

/-- Python `str.strip()` (whitespace from both ends), ASCII model. -/
def pyStrip (s : String) : String :=
  String.mk (pyStripChar pyIsSpace s.toList)

/-- Python truthiness of an optional string: `None` and `""` are falsy. -/
def pyTruthyOptStr : Option String → Bool
  | none => false
  | some s => s ≠ ""

/-- Python truthiness of an optional int: `None` and `0` are falsy. -/
def pyTruthyOptInt : Option Int → Bool
  | none => false
  | some n => n ≠ 0

/-- Python truthiness of an optional list: `None` and `[]` are falsy. -/
def pyTruthyOptList {α : Type} : Option (List α) → Bool
  | none => false
  | some l => !l.isEmpty

/-- Split a character list on every occurrence of `sep`;
models Python's `str.split(sep)` for a one-character separator
(so `"".split(sep) = [""]` becomes `[[]]`). -/
def splitOnChar (sep : Char) : List Char → List (List Char)
  | [] => [[]]
  | c :: rest =>
    if c = sep then
      [] :: splitOnChar sep rest
    else
      match splitOnChar sep rest with
      | h :: t => (c :: h) :: t
      | [] => [[c]]

/-! ## QueryBuilder (src/query_builder.py) -/

/-- The `QueryBuilder` dataclass: accumulated facets of a Scopus query.
`raw_query` embeds the `_raw_query` attribute. -/
structure QueryBuilder where
  terms : List String := []
  exclude_terms : List String := []
  title_terms : List String := []
  authors : List String := []
  year_from : Option Int := none
  year_to : Option Int := none
  subject_areas : List String := []
  raw_query : Option String := none
  deriving DecidableEq

/-- `QueryBuilder.add_term` (mutation modelled functionally). -/
def add_term (term : String) (qb : QueryBuilder) : QueryBuilder :=
  { qb with terms := qb.terms ++ [term] }

/-- `QueryBuilder.add_terms`. -/
def add_terms (ts : List String) (qb : QueryBuilder) : QueryBuilder :=
  { qb with terms := qb.terms ++ ts }

/-- `QueryBuilder.exclude_term`. -/
def exclude_term (term : String) (qb : QueryBuilder) : QueryBuilder :=
  { qb with exclude_terms := qb.exclude_terms ++ [term] }

/-- `QueryBuilder.add_title_term`. -/
def add_title_term (term : String) (qb : QueryBuilder) : QueryBuilder :=
  { qb with title_terms := qb.title_terms ++ [term] }

/-- `QueryBuilder.add_author`. -/
def add_author (author : String) (qb : QueryBuilder) : QueryBuilder :=
  { qb with authors := qb.authors ++ [author] }

/-- `QueryBuilder.set_year_range`. -/
def set_year_range (year_from year_to : Option Int) (qb : QueryBuilder) : QueryBuilder :=
  { qb with year_from := year_from, year_to := year_to }

/-- `QueryBuilder.add_subject_area`. -/
def add_subject_area (area : String) (qb : QueryBuilder) : QueryBuilder :=
  { qb with subject_areas := qb.subject_areas ++ [area] }

/-- `QueryBuilder.set_raw_query`. -/
def set_raw_query (query : String) (qb : QueryBuilder) : QueryBuilder :=
  { qb with raw_query := some query }

/-- The `parts` list assembled by `QueryBuilder.build` before year range
and exclusions are appended: one parenthesized group per non-empty facet. -/
def buildParts (qb : QueryBuilder) : List String :=
  (if qb.terms ≠ [] then
    ["(" ++ String.intercalate " AND "
        (qb.terms.map (fun t => "TITLE-ABS-KEY(\"" ++ t ++ "\")")) ++ ")"]
  else []) ++
  (if qb.title_terms ≠ [] then
    ["(" ++ String.intercalate " AND "
        (qb.title_terms.map (fun t => "TITLE(\"" ++ t ++ "\")")) ++ ")"]
  else []) ++
  (if qb.authors ≠ [] then
    ["(" ++ String.intercalate " OR "
        (qb.authors.map (fun a => "AUTH(\"" ++ a ++ "\")")) ++ ")"]
  else []) ++
  (if qb.subject_areas ≠ [] then
    ["(" ++ String.intercalate " OR "
        (qb.subject_areas.map (fun a => "SUBJAREA(" ++ a ++ ")")) ++ ")"]
  else [])

/-- The year-range clause appended by `QueryBuilder.build`; the
`if self.year_from and self.year_to:` chain uses Python truthiness,
so a year equal to `0` counts as unset. -/
def yearClause (qb : QueryBuilder) : String :=
  if pyTruthyOptInt qb.year_from && pyTruthyOptInt qb.year_to then
    " AND PUBYEAR > " ++ toString (qb.year_from.getD 0 - 1) ++
      " AND PUBYEAR < " ++ toString (qb.year_to.getD 0 + 1)
  else if pyTruthyOptInt qb.year_from then
    " AND PUBYEAR > " ++ toString (qb.year_from.getD 0 - 1)
  else if pyTruthyOptInt qb.year_to then
    " AND PUBYEAR < " ++ toString (qb.year_to.getD 0 + 1)
  else ""

/-- The exclusion clauses appended by `QueryBuilder.build`. -/
def exclusionClauses (qb : QueryBuilder) : String :=
  String.join (qb.exclude_terms.map
    (fun t => " AND NOT TITLE-ABS-KEY(\"" ++ t ++ "\")"))

/-- `QueryBuilder.build`: raw override (Python-truthy) first, otherwise
the facet groups joined with AND, then year range, then exclusions,
finally `str.strip()`. -/
def build (qb : QueryBuilder) : String :=
  if pyTruthyOptStr qb.raw_query then
    qb.raw_query.getD ""
  else
    pyStrip (String.intercalate " AND " (buildParts qb) ++
      yearClause qb ++ exclusionClauses qb)

/-- `build_query_from_topic`: convenience composition.  The guards
`if additional_terms:` etc. use Python truthiness. -/
def build_query_from_topic (topic : String)
    (additional_terms : Option (List String) := none)
    (exclude : Option (List String) := none)
    (year_from : Option Int := none) (year_to : Option Int := none)
    (subject_areas : Option (List String) := none) : String :=
  let b0 := add_term topic {}
  let b1 := if pyTruthyOptList additional_terms then
    add_terms (additional_terms.getD []) b0 else b0
  let b2 := if pyTruthyOptList exclude then
    (exclude.getD []).foldl (fun b t => exclude_term t b) b1 else b1
  let b3 := if pyTruthyOptInt year_from || pyTruthyOptInt year_to then
    set_year_range year_from year_to b2 else b2
  let b4 := if pyTruthyOptList subject_areas then
    (subject_areas.getD []).foldl (fun b a => add_subject_area a b) b3 else b3
  build b4

/-! ## PDFDownloader.sanitize_filename (src/pdf_downloader.py) -/

/-- Characters removed by the first substitution in `sanitize_filename`
(the class `[<>:"/\\|?*]`). -/
def illegalChar (c : Char) : Bool :=
  c = '<' || c = '>' || c = ':' || c = '"' || c = '/' ||
  c = '\\' || c = '|' || c = '?' || c = '*'

/-- Python's word-character class `\w` (ASCII fragment):
letters, digits and underscore. -/
def wordChar (c : Char) : Bool :=
  c.isAlphanum || c = '_'

/-- Characters kept by the third substitution in `sanitize_filename`
(the class `[\w\-_.]`). -/
def keepChar (c : Char) : Bool :=
  wordChar c || c = '-' || c = '.'

/-- `re.sub(r'\s+', '_', ...)`: replace every maximal whitespace run
by a single underscore.  The boolean records whether the previous
character was part of a run already replaced. -/
def collapseWsAux : Bool → List Char → List Char
  | _, [] => []
  | inRun, c :: rest =>
    if pyIsSpace c then
      if inRun then collapseWsAux true rest
      else '_' :: collapseWsAux true rest
    else c :: collapseWsAux false rest

/-- Python slicing `l[:m]` for an arbitrary integer bound `m`
(a negative bound counts from the end, clamped at zero). -/
def pySliceTo (m : Int) (l : List Char) : List Char :=
  if 0 ≤ m then l.take m.toNat
  else l.take (l.length - min l.length (-m).toNat)

/-- `PDFDownloader.sanitize_filename(title, max_length)`: remove
filename-illegal characters, collapse whitespace to underscores, drop
everything outside `[\w\-_.]`, truncate to `max_length` when longer,
and strip leading/trailing underscores. -/
def sanitize_filename (title : String) (max_length : Int := 100) : String :=
  let s1 := title.toList.filter (fun c => !illegalChar c)
  let s2 := collapseWsAux false s1
  let s3 := s2.filter keepChar
  let s4 := if (s3.length : Int) > max_length then pySliceTo max_length s3 else s3
  String.mk (pyStripChar (fun c => c = '_') s4)

/-! ## Paper and Paper.from_scopus_entry (src/paper_fetcher.py) -/

/-- The `Paper` dataclass. -/
structure Paper where
  scopus_id : String
  title : String
  abstract : String
  authors : List String
  publication_name : String
  publication_date : String
  citation_count : Int
  doi : Option String := none
  keywords : List String := []
  url : Option String := none
  deriving DecidableEq

/-- A raw Scopus API entry, restricted to the fields
`Paper.from_scopus_entry` reads.  A `none` field models an absent key.
`author` carries the list of `authname` values (an empty string models
a missing `authname`); `citedby_count` carries the already-coerced
integer value of the JSON `citedby-count` field (the `int(...)`
coercion of its decimal string is modelled as the parsed value). -/
structure ScopusEntry where
  author : Option (List String) := none
  authkeywords : Option String := none
  dc_identifier : Option String := none
  dc_title : Option String := none
  dc_description : Option String := none
  prism_publicationName : Option String := none
  prism_coverDate : Option String := none
  citedby_count : Option Int := none
  prism_doi : Option String := none
  prism_url : Option String := none
  deriving DecidableEq

/-- Python `str.replace("SCOPUS_ID:", "")`: remove every
non-overlapping occurrence of the marker, scanning left to right. -/
def scopusReplace : List Char → List Char
  | 'S' :: 'C' :: 'O' :: 'P' :: 'U' :: 'S' :: '_' :: 'I' :: 'D' :: ':' :: rest =>
    scopusReplace rest
  | c :: rest => c :: scopusReplace rest
  | [] => []

/-- `Paper.from_scopus_entry(entry)`. -/
def from_scopus_entry (entry : ScopusEntry) : Paper :=
  { scopus_id := String.mk (scopusReplace (entry.dc_identifier.getD "").toList)
    title := entry.dc_title.getD "No title"
    abstract := entry.dc_description.getD "No abstract available"
    authors := (entry.author.getD []).filter (fun n => n ≠ "")
    publication_name := entry.prism_publicationName.getD "Unknown"
    publication_date := entry.prism_coverDate.getD "Unknown"
    citation_count := entry.citedby_count.getD 0
    doi := entry.prism_doi
    keywords :=
      match entry.authkeywords with
      | none => []
      | some s =>
        if s ≠ "" then
          (splitOnChar '|' s.toList).map (fun cs => String.mk (pyStripChar pyIsSpace cs))
        else []
    url := entry.prism_url }

/-! ## ScopusClient.search_all (src/scopus_client.py) -/

/-- One parsed page of search results: the `search-results.entry` list
and the integer coercion of `search-results.opensearch:totalResults`
(default `0` when absent). -/
structure Page (α : Type) where
  entries : List α
  totalResults : Int
  deriving DecidableEq

/-- The `while` loop of `ScopusClient.search_all`.  The provider
oracle models `self.search(query, count, start)` as a function of
`(start, count)`.  State: accumulated entries, log of issued requests
as `(start, count)` pairs, and the current `start`.  `fuel` bounds the
number of loop iterations; every iteration that recurses has appended
at least one entry while `acc.length < total_count` held, so at most
`total_count` recursive steps can occur and the initial fuel
`total_count + 1` supplied by `search_all` is never exhausted. -/
def search_all_aux {α : Type} (provider : Nat → Nat → Page α) (total_count : Nat) :
    Nat → List α → List (Nat × Nat) → Nat → List α × List (Nat × Nat)
  | 0, acc, log, _ => (acc, log)
  | fuel + 1, acc, log, start =>
    if acc.length < total_count then
      let count := min 25 (total_count - acc.length)
      let page := provider start count
      let log1 := log ++ [(start, count)]
      if page.entries.isEmpty then (acc, log1)
      else
        let acc1 := acc ++ page.entries
        let start1 := start + page.entries.length
        if (start1 : Int) ≥ page.totalResults then (acc1, log1)
        else search_all_aux provider total_count fuel acc1 log1 start1
    else (acc, log)

/-- `ScopusClient.search_all(query, total_count)`: paginate until the
requested count, a zero-entry page, or the provider-reported total is
reached; return at most `total_count` entries together with the log of
issued requests. -/
def search_all {α : Type} (provider : Nat → Nat → Page α) (total_count : Nat := 100) :
    List α × List (Nat × Nat) :=
  let r := search_all_aux provider total_count (total_count + 1) [] [] 0
  (r.1.take total_count, r.2)

/-! ## PaperFetcher (src/paper_fetcher.py) -/

/-- `PaperFetcher.fetch_papers(query, count, save)`: delegate to
`search_all` and normalize every entry.  The JSON snapshot persistence
(`save`) is filesystem/timestamp plumbing outside the claims and is
modelled as a no-op; the provider oracle stands for the HTTP layer
answering this query. -/
def fetch_papers (provider : Nat → Nat → Page ScopusEntry)
    (_query : String) (count : Nat := 50) : List Paper :=
  ((search_all provider count).1).map from_scopus_entry

/-- Parameter names accepted by `build_query_from_topic`
(from its definition in src/query_builder.py). -/
def build_query_from_topic_params : List String :=
  ["topic", "additional_terms", "exclude", "year_from", "year_to", "subject_areas"]

/-- Keyword-argument names `PaperFetcher.fetch_by_topic` passes to
`build_query_from_topic` (from the call site in src/paper_fetcher.py). -/
def fetch_by_topic_call_kwargs : List String :=
  ["topic", "additional_terms", "additional_terms_or", "exclude", "year_from", "year_to"]

/-- `PaperFetcher.fetch_by_topic(...)`.  Python raises `TypeError` when
a call passes a keyword argument the callee does not declare, so the
call to `build_query_from_topic` is modelled as guarded by that check;
an `Except.error` models the raised exception. -/
def fetch_by_topic (provider : Nat → Nat → Page ScopusEntry) (topic : String)
    (count : Nat := 50)
    (additional_terms : Option (List String) := none)
    (additional_terms_or : Option (List String) := none)
    (exclude : Option (List String) := none)
    (year_from : Option Int := none) (year_to : Option Int := none) :
    Except String (String × List Paper) :=
  if fetch_by_topic_call_kwargs.all (fun k => build_query_from_topic_params.contains k) then
    let _ := additional_terms_or
    let query := build_query_from_topic topic additional_terms exclude year_from year_to none
    Except.ok (query, fetch_papers provider query count)
  else
    Except.error
      "TypeError: build_query_from_topic() got an unexpected keyword argument \x27additional_terms_or\x27"

/-! ## PDFDownloader (src/pdf_downloader.py) -/

/-- The `DownloadResult` dataclass. -/
structure DownloadResult where
  paper : Paper
  success : Bool
  filepath : Option String := none
  error : Option String := none
  source : Option String := none
  deriving DecidableEq

/-- The outcome of `get_unpaywall_pdf_url`: a PDF url plus the
`host_type` tag used to label the source. -/
structure UnpaywallLoc where
  pdf_url : String
  source : String
  deriving DecidableEq

/-- An HTTP transfer as seen by `download_pdf`: either a complete
response (declared content type and body bytes, bytes modelled as
characters), or an exception raised at any point of the transfer. -/
inductive Transfer where
  | ok (content_type : String) (body : String)
  | exn
  deriving DecidableEq

/-- The network oracle for `download_paper`: `unpaywall doi` models
`get_unpaywall_pdf_url(doi)` (one HTTP request, errors already
swallowed to `none` inside that helper), `fetch url` models the GET
issued by `download_pdf`. -/
structure Env where
  unpaywall : String → Option UnpaywallLoc
  fetch : String → Transfer

/-- The download directory: filenames with their sizes in bytes. -/
abbrev FS : Type := List (String × Nat)

/-- `filepath.exists()`. -/
def fsHas (fs : FS) (path : String) : Bool :=
  fs.any (fun e => e.1 = path)

/-- `filepath.unlink()` (also a no-op when absent, as in the guarded
exception handler). -/
def fsErase (fs : FS) (path : String) : FS :=
  fs.filter (fun e => e.1 ≠ path)

/-- `open(filepath, "wb")` followed by writing `size` bytes. -/
def fsWrite (fs : FS) (path : String) (size : Nat) : FS :=
  (path, size) :: fsErase fs path

/-- Lower-case a string (ASCII model of Python `str.lower()`). -/
def lowerAscii (s : String) : String :=
  String.mk (s.toList.map Char.toLower)

/-- Substring containment on character lists (Python's `in`). -/
def listContainsSub (needle : List Char) : List Char → Bool
  | [] => needle.isEmpty
  | c :: rest => needle.isPrefixOf (c :: rest) || listContainsSub needle rest

/-- The content-type test of `download_pdf`:
`"pdf" in content_type.lower() or "octet-stream" in content_type.lower()`. -/
def pdfLike (content_type : String) : Bool :=
  listContainsSub "pdf".toList (lowerAscii content_type).toList ||
  listContainsSub "octet-stream".toList (lowerAscii content_type).toList

/-- The magic-byte peek of `download_pdf`: the first chunk of (at most)
8 bytes must start with `%PDF`. -/
def magicOk (body : String) : Bool :=
  "%PDF".toList.isPrefixOf (body.toList.take 8)

/-- Writing the streamed body and running the minimum-size check of
`download_pdf`: files under 1000 bytes are deleted and reported as
failures. -/
def writeAndCheck (body : String) (filepath : String) (fs : FS) : Bool × FS :=
  let fs1 := fsWrite fs filepath body.length
  if body.length < 1000 then (false, fsErase fs1 filepath)
  else (true, fs1)

/-- `PDFDownloader.download_pdf(url, filepath)`, as a function of the
transfer the URL produces.  A non-PDF-like content type without the
`%PDF` magic aborts before the file is opened; an exception anywhere
during the transfer deletes the file (when present) and fails. -/
def download_pdf (t : Transfer) (filepath : String) (fs : FS) : Bool × FS :=
  match t with
  | .exn => (false, fsErase fs filepath)
  | .ok content_type body =>
    if pdfLike content_type then
      writeAndCheck body filepath fs
    else if magicOk body then
      writeAndCheck body filepath fs
    else
      (false, fs)

/-- The target path `download_paper` derives for a paper: the sanitized
custom filename when one is (truthily) given, else the sanitized title,
with the `.pdf` extension. -/
def target_path (paper : Paper) (filename : Option String) : String :=
  (if pyTruthyOptStr filename then sanitize_filename (filename.getD "") 100
   else sanitize_filename paper.title 100) ++ ".pdf"

/-- `PDFDownloader.download_paper(paper, filename)`: no-DOI papers fail
immediately; an existing target file short-circuits as a cached
success; otherwise resolve via Unpaywall and download.  Returns the
result, the updated download directory, and the number of HTTP
requests issued. -/
def download_paper (env : Env) (paper : Paper) (filename : Option String)
    (fs : FS) : DownloadResult × FS × Nat :=
  if !pyTruthyOptStr paper.doi then
    ({ paper := paper, success := false, error := some "No DOI available" }, fs, 0)
  else
    let filepath := target_path paper filename
    if fsHas fs filepath then
      ({ paper := paper, success := true, filepath := some filepath,
         source := some "cached" }, fs, 0)
    else
      match env.unpaywall (paper.doi.getD "") with
      | some loc =>
        let r := download_pdf (env.fetch loc.pdf_url) filepath fs
        if r.1 then
          ({ paper := paper, success := true, filepath := some filepath,
             source := some ("unpaywall:" ++ loc.source) }, r.2, 2)
        else
          ({ paper := paper, success := false,
             error := some "PDF not available via open access" }, r.2, 2)
      | none =>
        ({ paper := paper, success := false,
           error := some "PDF not available via open access" }, fs, 1)

/-- One `dict.get(key, 0) + 1` update of a histogram, preserving
Python-dict insertion order (new keys are appended at the end). -/
def bump : List (String × Nat) → String → List (String × Nat)
  | [], k => [(k, 1)]
  | (k', v) :: rest, k =>
    if k' = k then (k', v + 1) :: rest else (k', v) :: bump rest k

/-- Histogram lookup with default `0`. -/
def histLookup : List (String × Nat) → String → Nat
  | [], _ => 0
  | (k', v) :: rest, k => if k' = k then v else histLookup rest k

/-- The key a successful result contributes to the source histogram:
`r.source or "unknown"`. -/
def sourceKey (r : DownloadResult) : String :=
  if pyTruthyOptStr r.source then r.source.getD "" else "unknown"

/-- The key a failed result contributes to the error histogram:
`r.error or "unknown"`. -/
def errorKey (r : DownloadResult) : String :=
  if pyTruthyOptStr r.error then r.error.getD "" else "unknown"

/-- The dictionary returned by `get_download_stats`; the float success
rate is modelled exactly as a rational. -/
structure DownloadStats where
  total : Nat
  successful : Nat
  failed : Nat
  success_rate : Rat
  sources : List (String × Nat)
  errors : List (String × Nat)
  deriving DecidableEq

/-- `PDFDownloader.get_download_stats(results)`. -/
def get_download_stats (results : List DownloadResult) : DownloadStats :=
  let successful := results.filter (fun r => r.success)
  let failed := results.filter (fun r => !r.success)
  { total := results.length
    successful := successful.length
    failed := failed.length
    success_rate :=
      if results.isEmpty then 0
      else (successful.length : Rat) / (results.length : Rat) * 100
    sources := successful.foldl (fun h r => bump h (sourceKey r)) []
    errors := failed.foldl (fun h r => bump h (errorKey r)) [] }

/-! ## Selection parsing (download_papers.py) -/

/-- Parse a non-empty all-digit character list as a natural number. -/
def digitsToNat : List Char → Option Nat
  | [] => none
  | cs =>
    if cs.all Char.isDigit then
      some (cs.foldl (fun n c => 10 * n + (c.toNat - '0'.toNat)) 0)
    else none

/-- Python `int(s)` on the decimal strings this CLI handles: an
optional sign followed by at least one digit; `none` models the
`ValueError` raised on anything else. -/
def pyInt : List Char → Option Int
  | '-' :: rest => (digitsToNat rest).map (fun n => -(n : Int))
  | '+' :: rest => (digitsToNat rest).map (fun n => (n : Int))
  | cs => (digitsToNat cs).map (fun n => (n : Int))

/-- Python `part.split("-", 1)` when `"-" in part` holds: the pieces
before and after the first dash. -/
def splitFirstDash : List Char → List Char × List Char
  | [] => ([], [])
  | c :: rest =>
    if c = '-' then ([], rest)
    else
      let r := splitFirstDash rest
      (c :: r.1, r.2)

/-- Insert `n` into a sorted duplicate-free list, keeping it sorted and
duplicate-free; the accumulated indices model the Python `set` whose
final `sorted(...)` the parser returns. -/
def insertSorted (n : Nat) : List Nat → List Nat
  | [] => [n]
  | m :: rest =>
    if n < m then n :: m :: rest
    else if n = m then m :: rest
    else m :: insertSorted n rest

/-- Python `range(s, e + 1)` over integers. -/
def intRangeIncl (s e : Int) : List Int :=
  if s ≤ e then (List.range (e - s + 1).toNat).map (fun k => s + k) else []

/-- The body of the range branch of `parse_selection`: add `i - 1` for
every `i` in `range(start, end + 1)` with `1 <= i <= max_index`. -/
def addRange (acc : List Nat) (s e : Int) (max_index : Nat) : List Nat :=
  ((intRangeIncl s e).filter (fun i => 1 ≤ i && i ≤ (max_index : Int))).foldl
    (fun a i => insertSorted (i - 1).toNat a) acc

/-- The warning printed for an invalid range part. -/
def warnRange (part : List Char) : String :=
  "Warning: Invalid range \x27" ++ String.mk part ++ "\x27, skipping"

/-- The warning printed for an out-of-range single index. -/
def warnOutOfRange (idx : Int) (max_index : Nat) : String :=
  "Warning: Index " ++ toString idx ++ " out of range (1-" ++
    toString max_index ++ "), skipping"

/-- The warning printed for an unparsable single index. -/
def warnInvalidIndex (part : List Char) : String :=
  "Warning: Invalid index \x27" ++ String.mk part ++ "\x27, skipping"

/-- One iteration of the `for part in parts` loop of `parse_selection`:
state is the (sorted, duplicate-free) index set and the emitted
warnings, in order. -/
def process_part (max_index : Nat) (st : List Nat × List String)
    (part : List Char) : List Nat × List String :=
  if part.contains '-' then
    match pyInt (splitFirstDash part).1, pyInt (splitFirstDash part).2 with
    | some s, some e => (addRange st.1 s e max_index, st.2)
    | _, _ => (st.1, st.2 ++ [warnRange part])
  else
    match pyInt part with
    | some idx =>
      if 1 ≤ idx ∧ idx ≤ (max_index : Int) then
        (insertSorted (idx - 1).toNat st.1, st.2)
      else
        (st.1, st.2 ++ [warnOutOfRange idx max_index])
    | none => (st.1, st.2 ++ [warnInvalidIndex part])

/-- `parse_selection(selection_str, max_index)` from download_papers.py:
strip spaces, split on commas, process every part, and return the
sorted 0-based index set together with the warnings printed to stderr
(no exception escapes).  -/
def parse_selection (selection_str : String) (max_index : Nat) :
    List Nat × List String :=
  let parts := splitOnChar ',' (selection_str.toList.filter (fun c => c ≠ ' '))
  parts.foldl (process_part max_index) ([], [])

/-- The `"all"` branch of `interactive_select`:
`[i for i, p in enumerate(papers) if p.doi]`. -/
def interactive_select_all (papers : List Paper) : List Nat :=
  ((papers.enum).filter (fun ip => pyTruthyOptStr ip.2.doi)).map Prod.fst

/-! ## Helper lemmas -/

theorem dropWhile_eq_self_of_head {p : Char → Bool} {l : List Char}
    (h : ∀ c, l.head? = some c → p c = false) : l.dropWhile p = l := by
  cases l with
  | nil => rfl
  | cons a t =>
    have ha : p a = false := h a rfl
    simp [List.dropWhile_cons, ha]

theorem pyStripChar_eq_self {p : Char → Bool} {l : List Char}
    (hh : ∀ c, l.head? = some c → p c = false)
    (hl : ∀ c, l.getLast? = some c → p c = false) : pyStripChar p l = l := by
  unfold pyStripChar
  rw [dropWhile_eq_self_of_head hh]
  rw [dropWhile_eq_self_of_head (l := l.reverse)
    (fun c hc => hl c (by rwa [List.head?_reverse] at hc))]
  exact List.reverse_reverse l

theorem head?_pyStripChar {p : Char → Bool} {l : List Char} {c : Char}
    (h : (pyStripChar p l).head? = some c) : p c = false := by
  unfold pyStripChar at h
  rw [List.head?_reverse] at h
  set x := l.dropWhile p with hx
  set y := x.reverse.dropWhile p with hy
  have hyne : y ≠ [] := by
    intro he
    rw [he] at h
    simp at h
  obtain ⟨t, ht⟩ := List.dropWhile_suffix (l := x.reverse) p
  have : y.getLast? = x.reverse.getLast? := by
    rw [← ht, List.getLast?_append]
    cases hy' : y.getLast? with
    | none => exact absurd (List.getLast?_eq_none_iff.mp hy') hyne
    | some d => rfl
  rw [this, List.getLast?_reverse] at h
  have := List.head?_dropWhile_not p l
  rw [← hx, h] at this
  exact this

theorem getLast?_pyStripChar {p : Char → Bool} {l : List Char} {c : Char}
    (h : (pyStripChar p l).getLast? = some c) : p c = false := by
  unfold pyStripChar at h
  rw [List.getLast?_reverse] at h
  have := List.head?_dropWhile_not p (l.dropWhile p).reverse
  rw [h] at this
  exact this

theorem mem_pyStripChar {p : Char → Bool} {l : List Char} {c : Char}
    (h : c ∈ pyStripChar p l) : c ∈ l := by
  unfold pyStripChar at h
  rw [List.mem_reverse] at h
  have h1 := List.dropWhile_subset (l := (l.dropWhile p).reverse) p h
  rw [List.mem_reverse] at h1
  exact List.dropWhile_subset p h1

/-! ## Claim C5: raw-query override -/

/-- C5 counterexample: the claim fails at the empty raw string, because
`build` tests the raw override with Python truthiness.  With a term
facet set, `set_raw_query("")` followed by `build()` returns the facet
composition, not `""`. -/
theorem C5_counterexample :
    build (set_raw_query "" (add_term "a" {})) ≠ "" := by decide

/-- C5 (amended): for every NON-EMPTY string `s`, after
`set_raw_query(s)` the call `build()` returns exactly `s`, regardless
of any terms, exclusions, title terms, authors, subject areas, or year
bounds also set on the builder. -/
theorem C5_raw_query_override (qb : QueryBuilder) (s : String) (h : s ≠ "") :
    build (set_raw_query s qb) = s := by
  simp [build, set_raw_query, pyTruthyOptStr, h]

/-- C5 witness: the amended claim at a concrete builder that has every
facet kind populated. -/
theorem C5_witness :
    build (set_raw_query "x"
      (add_subject_area "COMP" (add_author "Doe" (add_title_term "t"
        (exclude_term "e" (add_term "a"
          (set_year_range (some 2020) (some 2021) {}))))))) = "x" :=
  C5_raw_query_override _ "x" (by decide)

/-! ## Claim C1: search_all pagination -/

/-- A fake provider with pages of sizes 25, 25, 10, 0 that misreports
the available total as 1000 (the spec's pagination scenario). -/
def fakePages : Nat → Nat → Page Nat := fun start _ =>
  if start = 0 then ⟨List.range 25, 1000⟩
  else if start = 25 then ⟨(List.range 25).map (fun k => 25 + k), 1000⟩
  else if start = 50 then ⟨(List.range 10).map (fun k => 50 + k), 1000⟩
  else ⟨[], 1000⟩

/-- The same pages with an honestly reported total of 60. -/
def honestPages : Nat → Nat → Page Nat := fun start _ =>
  if start = 0 then ⟨List.range 25, 60⟩
  else if start = 25 then ⟨(List.range 25).map (fun k => 25 + k), 60⟩
  else if start = 50 then ⟨(List.range 10).map (fun k => 50 + k), 60⟩
  else ⟨[], 60⟩

/-- C1: `search_all` returns at most `total_count` entries for every
provider; on the fake provider with page sizes [25,25,10,0] and
`total_count = 100` it returns exactly 60 entries and issues exactly
the four requests ending at the zero-entry page (starts advance by the
entries returned: 0, 25, 50, 60), with nothing beyond it; and with an
honestly reported total of 60 it stops after three requests because the
provider-reported total has been reached. -/
theorem C1_search_all_pagination :
    (∀ (α : Type) (provider : Nat → Nat → Page α) (total_count : Nat),
      (search_all provider total_count).1.length ≤ total_count)
    ∧ (search_all fakePages 100).1.length = 60
    ∧ (search_all fakePages 100).2 = [(0, 25), (25, 25), (50, 25), (60, 25)]
    ∧ (search_all honestPages 100).2 = [(0, 25), (25, 25), (50, 25)] := by
  refine ⟨?_, by decide, by decide, by decide⟩
  intro α provider total_count
  simp only [search_all]
  simp [List.length_take]

/-! ## Claim C7: fetch_by_topic -/

/-- C7 (code bug): every call of `PaperFetcher.fetch_by_topic` raises
`TypeError`, because it passes the keyword argument
`additional_terms_or` to `build_query_from_topic`, whose definition
does not declare that parameter; the pair of query string and papers
is never returned. -/
theorem C7_fetch_by_topic_raises (provider : Nat → Nat → Page ScopusEntry)
    (topic : String) (count : Nat)
    (additional_terms additional_terms_or exclude : Option (List String))
    (year_from year_to : Option Int) :
    fetch_by_topic provider topic count additional_terms additional_terms_or
        exclude year_from year_to =
      Except.error
        "TypeError: build_query_from_topic() got an unexpected keyword argument \x27additional_terms_or\x27" :=
  rfl

/-! ## Claim C3: download_pdf validation -/

theorem fsErase_fsWrite (fs : FS) (p : String) (n : Nat) :
    fsErase (fsWrite fs p n) p = fsErase fs p := by
  simp only [fsWrite, fsErase, List.filter_cons]
  simp [List.filter_filter]

theorem fsHas_fsErase (fs : FS) (p : String) :
    fsHas (fsErase fs p) p = false := by
  induction fs with
  | nil => rfl
  | cons e t ih =>
    simp only [fsErase, List.filter_cons] at *
    by_cases h : e.1 = p
    · rw [if_neg (by simp [h])]
      exact ih
    · rw [if_pos (by simp [h])]
      simp only [fsHas, List.any_cons] at *
      simp [h, ih]

theorem fsHas_fsWrite (fs : FS) (p : String) (n : Nat) :
    fsHas (fsWrite fs p n) p = true := by
  simp [fsWrite, fsHas]

/-- C3: `download_pdf` (i) accepts and writes a body starting with the
`%PDF` magic even under a non-PDF-like declared content type, provided
it passes the 1000-byte minimum; (ii) with a non-PDF-like content type
and no magic bytes it aborts leaving the directory untouched; (iii)
whenever the write path is reached with a body under 1000 bytes, the
file is deleted and failure reported; (iv) an exception during the
transfer deletes the file and fails; and (v) a failed call never leaves
a file behind that was not already there. -/
theorem C3_download_pdf_validation (content_type body filepath : String) (fs : FS) :
    (pdfLike content_type = false → magicOk body = true → ¬ body.length < 1000 →
      download_pdf (Transfer.ok content_type body) filepath fs =
        (true, fsWrite fs filepath body.length))
    ∧ (pdfLike content_type = false → magicOk body = false →
      download_pdf (Transfer.ok content_type body) filepath fs = (false, fs))
    ∧ ((pdfLike content_type = true ∨ magicOk body = true) → body.length < 1000 →
      download_pdf (Transfer.ok content_type body) filepath fs =
        (false, fsErase fs filepath))
    ∧ (download_pdf Transfer.exn filepath fs = (false, fsErase fs filepath))
    ∧ (∀ t : Transfer, fsHas fs filepath = false →
      (download_pdf t filepath fs).1 = false →
      fsHas (download_pdf t filepath fs).2 filepath = false) := by
  refine ⟨?_, ?_, ?_, rfl, ?_⟩
  · intro h1 h2 h3
    simp [download_pdf, writeAndCheck, h1, h2, h3]
  · intro h1 h2
    simp [download_pdf, h1, h2]
  · intro h1 h2
    rcases h1 with h1 | h1 <;>
      simp [download_pdf, writeAndCheck, h1, h2, fsErase_fsWrite]
  · intro t habs hfail
    cases t with
    | exn => simpa [download_pdf] using fsHas_fsErase fs filepath
    | ok ct body =>
      by_cases hp : pdfLike ct
      · by_cases hlen : body.length < 1000
        · simp [download_pdf, writeAndCheck, hp, hlen, fsErase_fsWrite,
            fsHas_fsErase]
        · simp [download_pdf, writeAndCheck, hp, hlen] at hfail
      · by_cases hm : magicOk body
        · by_cases hlen : body.length < 1000
          · simp [download_pdf, writeAndCheck, hp, hm, hlen, fsErase_fsWrite,
              fsHas_fsErase]
          · simp [download_pdf, writeAndCheck, hp, hm, hlen] at hfail
        · simpa [download_pdf, hp, hm] using habs

set_option maxRecDepth 40000 in
/-- C3 witness: the theorem at concrete transfers — an HTML-declared
response carrying a real PDF of 1200 bytes is written; an HTML page
without magic bytes is rejected with no file created; a 3-byte "PDF"
is deleted after writing; an exception leaves no file. -/
theorem C3_witness :
    (pdfLike "text/html" = false ∧ magicOk (String.mk ('%' :: 'P' :: 'D' :: 'F' :: List.replicate 1196 'a')) = true)
    ∧ download_pdf (Transfer.ok "text/html" (String.mk ('%' :: 'P' :: 'D' :: 'F' :: List.replicate 1196 'a'))) "p.pdf" [] =
        (true, fsWrite [] "p.pdf" 1200)
    ∧ download_pdf (Transfer.ok "text/html" "<html>not a pdf</html>") "p.pdf" [] = (false, [])
    ∧ download_pdf (Transfer.ok "application/pdf" "%PD") "p.pdf" [] = (false, fsErase [] "p.pdf")
    ∧ fsHas (download_pdf Transfer.exn "p.pdf" []).2 "p.pdf" = false := by
  refine ⟨by decide, ?_, ?_, ?_, ?_⟩
  · exact (C3_download_pdf_validation "text/html" _ "p.pdf" []).1
      (by decide) (by decide) (by decide)
  · exact (C3_download_pdf_validation "text/html" "<html>not a pdf</html>" "p.pdf" []).2.1
      (by decide) (by decide)
  · exact (C3_download_pdf_validation "application/pdf" "%PD" "p.pdf" []).2.2.1
      (Or.inl (by decide)) (by decide)
  · exact (C3_download_pdf_validation "x" "x" "p.pdf" []).2.2.2.2
      Transfer.exn (by decide) (by decide)

/-! ## Claim C2: download_paper DOI gate and caching -/

theorem download_pdf_true_has (t : Transfer) (p : String) (fs : FS)
    (h : (download_pdf t p fs).1 = true) :
    fsHas (download_pdf t p fs).2 p = true := by
  cases t with
  | exn => simp [download_pdf] at h
  | ok ct body =>
    by_cases hlen : body.length < 1000
    · by_cases hp : pdfLike ct
      · simp [download_pdf, writeAndCheck, hp, hlen] at h
      · by_cases hm : magicOk body
        · simp [download_pdf, writeAndCheck, hp, hm, hlen] at h
        · simp [download_pdf, hp, hm] at h
    · by_cases hp : pdfLike ct
      · simpa [download_pdf, writeAndCheck, hp, hlen] using
          fsHas_fsWrite fs p body.length
      · by_cases hm : magicOk body
        · simpa [download_pdf, writeAndCheck, hp, hm, hlen] using
            fsHas_fsWrite fs p body.length
        · simp [download_pdf, hp, hm] at h

theorem download_paper_success_has (env : Env) (paper : Paper)
    (filename : Option String) (fs : FS)
    (h : (download_paper env paper filename fs).1.success = true) :
    fsHas (download_paper env paper filename fs).2.1
      (target_path paper filename) = true := by
  by_cases hdoi : pyTruthyOptStr paper.doi
  · by_cases hcache : fsHas fs (target_path paper filename)
    · simp [download_paper, hdoi, hcache]
    · cases hu : env.unpaywall (paper.doi.getD "") with
      | none => simp [download_paper, hdoi, hcache, hu] at h
      | some loc =>
        by_cases hok :
            (download_pdf (env.fetch loc.pdf_url) (target_path paper filename) fs).1
        · have := download_pdf_true_has (env.fetch loc.pdf_url)
            (target_path paper filename) fs hok
          simpa [download_paper, hdoi, hcache, hu, hok] using this
        · simp [download_paper, hdoi, hcache, hu, hok] at h
  · simp [download_paper, hdoi] at h

/-- C2: `download_paper` (i) fails immediately with the distinct error
"No DOI available" (no request, directory untouched) when the paper's
DOI is Python-falsy; (ii) when the DOI is present and the target file
at the sanitized path already exists, it returns success with source
"cached", no request issued and the directory untouched; and (iii)
after any successful call, calling it again for the same paper and
filename returns success with source "cached" and no request. -/
theorem C2_download_paper_cache (env : Env) (paper : Paper)
    (filename : Option String) (fs : FS) :
    (pyTruthyOptStr paper.doi = false →
      download_paper env paper filename fs =
        ({ paper := paper, success := false, error := some "No DOI available" },
          fs, 0))
    ∧ (pyTruthyOptStr paper.doi = true →
      fsHas fs (target_path paper filename) = true →
      download_paper env paper filename fs =
        ({ paper := paper, success := true,
           filepath := some (target_path paper filename),
           source := some "cached" }, fs, 0))
    ∧ ((download_paper env paper filename fs).1.success = true →
      download_paper env paper filename (download_paper env paper filename fs).2.1 =
        ({ paper := paper, success := true,
           filepath := some (target_path paper filename),
           source := some "cached" },
          (download_paper env paper filename fs).2.1, 0)) := by
  refine ⟨?_, ?_, ?_⟩
  · intro h
    simp [download_paper, h]
  · intro h1 h2
    simp [download_paper, h1, h2]
  · intro hs
    have hdoi : pyTruthyOptStr paper.doi = true := by
      by_contra hd
      rw [Bool.not_eq_true] at hd
      simp [download_paper, hd] at hs
    have hhas := download_paper_success_has env paper filename fs hs
    generalize hfs : (download_paper env paper filename fs).2.1 = fs2 at hhas ⊢
    simp [download_paper, hdoi, hhas]

/-- Concrete paper without a DOI, for the C2 witness. -/
def paperNoDoi : Paper :=
  { scopus_id := "1", title := "t", abstract := "a", authors := [],
    publication_name := "p", publication_date := "2020", citation_count := 0 }

/-- Concrete paper with a DOI, for the C2 witness. -/
def paperWithDoi : Paper :=
  { paperNoDoi with doi := some "10.1/x" }

/-- A network oracle that never finds anything, for the C2 witness. -/
def envNone : Env :=
  { unpaywall := fun _ => none, fetch := fun _ => Transfer.exn }

/-- C2 witness: the theorem at concrete inputs — a no-DOI paper fails
with "No DOI available"; with `t.pdf` already on disk the call (and a
repeated call) return the cached success without touching anything. -/
theorem C2_witness :
    download_paper envNone paperNoDoi none [] =
      ({ paper := paperNoDoi, success := false,
         error := some "No DOI available" }, [], 0)
    ∧ download_paper envNone paperWithDoi none [("t.pdf", 5)] =
      ({ paper := paperWithDoi, success := true,
         filepath := some (target_path paperWithDoi none),
         source := some "cached" }, [("t.pdf", 5)], 0)
    ∧ download_paper envNone paperWithDoi none
        (download_paper envNone paperWithDoi none [("t.pdf", 5)]).2.1 =
      ({ paper := paperWithDoi, success := true,
         filepath := some (target_path paperWithDoi none),
         source := some "cached" },
        (download_paper envNone paperWithDoi none [("t.pdf", 5)]).2.1, 0) := by
  refine ⟨?_, ?_, ?_⟩
  · exact (C2_download_paper_cache envNone paperNoDoi none []).1 (by decide)
  · exact (C2_download_paper_cache envNone paperWithDoi none [("t.pdf", 5)]).2.1
      (by decide) (by decide)
  · exact (C2_download_paper_cache envNone paperWithDoi none [("t.pdf", 5)]).2.2
      (by decide)

/-! ## Claim C9: get_download_stats -/

theorem histLookup_bump (h : List (String × Nat)) (k k' : String) :
    histLookup (bump h k) k' =
      histLookup h k' + (if k' = k then 1 else 0) := by
  induction h with
  | nil =>
    by_cases he : k' = k
    · simp [bump, histLookup, he]
    · simp [bump, histLookup, he, Ne.symm he]
  | cons e t ih =>
    obtain ⟨ek, ev⟩ := e
    by_cases h1 : ek = k
    · subst h1
      by_cases h2 : k' = ek
      · subst h2
        simp [bump, histLookup]
      · simp [bump, histLookup, h2, Ne.symm h2]
    · by_cases h2 : k' = ek
      · subst h2
        simp [bump, histLookup, h1, Ne.symm h1]
      · simp [bump, histLookup, h1, h2, Ne.symm h2, ih]

theorem histLookup_foldl_bump (f : DownloadResult → String)
    (l : List DownloadResult) (init : List (String × Nat)) (k : String) :
    histLookup (l.foldl (fun h r => bump h (f r)) init) k =
      histLookup init k + l.countP (fun r => f r = k) := by
  induction l generalizing init with
  | nil => simp [List.countP_nil]
  | cons r t ih =>
    simp only [List.foldl_cons, List.countP_cons, ih, histLookup_bump]
    by_cases he : f r = k
    · simp [he]
      omega
    · simp [he, Ne.symm he]

/-- A dummy paper for the concrete statistics scenario. -/
def demoPaper : Paper :=
  { scopus_id := "0", title := "d", abstract := "a", authors := [],
    publication_name := "p", publication_date := "2020", citation_count := 0 }

/-- The spec's statistics batch: three successes with sources
unpaywall, unpaywall, cached, and one failure. -/
def demoResults : List DownloadResult :=
  [ { paper := demoPaper, success := true, source := some "unpaywall" },
    { paper := demoPaper, success := true, source := some "unpaywall" },
    { paper := demoPaper, success := true, source := some "cached" },
    { paper := demoPaper, success := false,
      error := some "PDF not available via open access" } ]

/-- C9: `get_download_stats` reports the total, the success and failure
counts, a success rate equal to 0 on the empty input, and per-source /
per-error histograms: the source histogram counts, for every key, the
successful results whose (`or "unknown"`-defaulted) source equals it,
and the error histogram does the same for failed results' error
messages; on the spec's concrete batch the histograms are
{unpaywall: 2, cached: 1} and {PDF not available via open access: 1}. -/
theorem C9_download_stats (results : List DownloadResult) :
    (get_download_stats results).total = results.length
    ∧ (get_download_stats results).successful =
        (results.filter (fun r => r.success)).length
    ∧ (get_download_stats results).failed =
        (results.filter (fun r => !r.success)).length
    ∧ (get_download_stats []).success_rate = 0
    ∧ (∀ s, histLookup (get_download_stats results).sources s =
        results.countP (fun r => r.success && (sourceKey r = s)))
    ∧ (∀ e, histLookup (get_download_stats results).errors e =
        results.countP (fun r => !r.success && (errorKey r = e)))
    ∧ (get_download_stats demoResults).sources =
        [("unpaywall", 2), ("cached", 1)]
    ∧ (get_download_stats demoResults).errors =
        [("PDF not available via open access", 1)] := by
  refine ⟨rfl, rfl, rfl, rfl, ?_, ?_, by decide, by decide⟩
  · intro s
    have h := histLookup_foldl_bump sourceKey
      (results.filter (fun r => r.success)) [] s
    rw [List.countP_filter] at h
    simpa [histLookup, get_download_stats, Bool.and_comm] using h
  · intro e
    have h := histLookup_foldl_bump errorKey
      (results.filter (fun r => !r.success)) [] e
    rw [List.countP_filter] at h
    simpa [histLookup, get_download_stats, Bool.and_comm] using h

/-! ## Claim C6: Paper.from_scopus_entry normalization -/

theorem scopusReplace_marker_append (rest : List Char) :
    scopusReplace ("SCOPUS_ID:".toList ++ rest) = scopusReplace rest := rfl

/-- C6 counterexample: the identifier normalization is
`str.replace("SCOPUS_ID:", "")`, which removes every occurrence of the
marker, not only a leading prefix: on the entry whose `dc:identifier`
is `"XSCOPUS_ID:1"` (where the marker is not a prefix, so prefix
stripping would leave it unchanged) the produced `scopus_id` is
`"X1"`. -/
theorem C6_counterexample :
    (from_scopus_entry { dc_identifier := some "XSCOPUS_ID:1" }).scopus_id = "X1"
    ∧ ("X1" : String) ≠ "XSCOPUS_ID:1" := by decide

/-- C6 (amended): `from_scopus_entry` defaults a missing title to
"No title" and a missing abstract to "No abstract available", takes the
citation count from the (integer-coerced) `citedby-count` with default
0, splits a present non-empty keyword string on the pipe delimiter
trimming every part, and removes every occurrence of `"SCOPUS_ID:"`
from the identifier — in particular, when the identifier is the marker
followed by a suffix containing no further occurrence, the result is
exactly that suffix (the prefix-strip reading holds only in that
case). -/
theorem C6_from_scopus_entry (entry : ScopusEntry) :
    (entry.dc_title = none → (from_scopus_entry entry).title = "No title")
    ∧ (entry.dc_description = none →
      (from_scopus_entry entry).abstract = "No abstract available")
    ∧ ((from_scopus_entry entry).citation_count = entry.citedby_count.getD 0)
    ∧ (∀ s, entry.authkeywords = some s → s ≠ "" →
      (from_scopus_entry entry).keywords =
        (splitOnChar '|' s.toList).map
          (fun cs => String.mk (pyStripChar pyIsSpace cs)))
    ∧ ((from_scopus_entry entry).scopus_id =
        String.mk (scopusReplace (entry.dc_identifier.getD "").toList))
    ∧ (∀ rest : List Char,
      entry.dc_identifier = some (String.mk ("SCOPUS_ID:".toList ++ rest)) →
      scopusReplace rest = rest →
      (from_scopus_entry entry).scopus_id = String.mk rest) := by
  refine ⟨?_, ?_, rfl, ?_, rfl, ?_⟩
  · intro h
    simp [from_scopus_entry, h]
  · intro h
    simp [from_scopus_entry, h]
  · intro s hs hne
    simp [from_scopus_entry, hs, hne]
  · intro rest hid hfix
    simp only [from_scopus_entry, hid, Option.getD_some]
    rw [show (String.mk ("SCOPUS_ID:".toList ++ rest)).toList =
      "SCOPUS_ID:".toList ++ rest from rfl]
    rw [scopusReplace_marker_append, hfix]

/-- A concrete raw entry with missing title, abstract and citation
count, a keyword string, and a marker-prefixed identifier. -/
def entryW : ScopusEntry :=
  { authkeywords := some " a | b", dc_identifier := some "SCOPUS_ID:85" }

/-- C6 witness: the amended claim at the concrete entry `entryW`. -/
theorem C6_witness :
    (from_scopus_entry entryW).title = "No title"
    ∧ (from_scopus_entry entryW).abstract = "No abstract available"
    ∧ (from_scopus_entry entryW).citation_count = 0
    ∧ (from_scopus_entry entryW).keywords = ["a", "b"]
    ∧ (from_scopus_entry entryW).scopus_id = "85" := by
  have h := C6_from_scopus_entry entryW
  refine ⟨h.1 rfl, h.2.1 rfl, h.2.2.1, ?_, ?_⟩
  · rw [h.2.2.2.1 " a | b" rfl (by decide)]
    decide
  · rw [h.2.2.2.2.2 "85".toList (by decide) (by decide)]
    rfl

/-! ## Claim C8: parse_selection and the "all" selection -/

theorem mem_insertSorted {i n : Nat} :
    ∀ {l : List Nat}, i ∈ insertSorted n l → i = n ∨ i ∈ l := by
  intro l
  induction l with
  | nil =>
    intro h
    simp [insertSorted] at h
    exact Or.inl h
  | cons m t ih =>
    intro h
    simp only [insertSorted] at h
    split at h
    · rcases List.mem_cons.mp h with h1 | h1
      · exact Or.inl h1
      · exact Or.inr h1
    · split at h
      · exact Or.inr h
      · rcases List.mem_cons.mp h with h1 | h1
        · exact Or.inr (h1 ▸ List.mem_cons_self m t)
        · rcases ih h1 with h2 | h2
          · exact Or.inl h2
          · exact Or.inr (List.mem_cons_of_mem m h2)

theorem foldl_insert_mem (m : Nat) :
    ∀ (l : List Int), (∀ x ∈ l, 1 ≤ x ∧ x ≤ (m : Int)) →
    ∀ (acc : List Nat) (i : Nat),
      i ∈ l.foldl (fun a x => insertSorted (x - 1).toNat a) acc →
      i ∈ acc ∨ i < m := by
  intro l
  induction l with
  | nil =>
    intro _ acc i h
    exact Or.inl h
  | cons x t ih =>
    intro hl acc i h
    simp only [List.foldl_cons] at h
    have hx := hl x (List.mem_cons_self x t)
    rcases ih (fun y hy => hl y (List.mem_cons_of_mem x hy)) _ i h with h1 | h1
    · rcases mem_insertSorted h1 with h2 | h2
      · subst h2
        right
        omega
      · exact Or.inl h2
    · exact Or.inr h1

theorem addRange_mem {acc : List Nat} {s e : Int} {m i : Nat}
    (h : i ∈ addRange acc s e m) : i ∈ acc ∨ i < m := by
  unfold addRange at h
  refine foldl_insert_mem m _ ?_ acc i h
  intro x hx
  have := (List.mem_filter.mp hx).2
  simp at this
  exact this

theorem process_part_mem {m : Nat} {st : List Nat × List String}
    {part : List Char} {i : Nat}
    (h : i ∈ (process_part m st part).1) : i ∈ st.1 ∨ i < m := by
  unfold process_part at h
  split at h
  · split at h
    · exact addRange_mem h
    · exact Or.inl h
  · split at h
    · split at h
      · rcases mem_insertSorted h with h1 | h1
        · subst h1
          right
          omega
        · exact Or.inl h1
      · exact Or.inl h
    · exact Or.inl h

theorem foldl_process_part_mem (m : Nat) :
    ∀ (ps : List (List Char)) (st : List Nat × List String),
      (∀ i ∈ st.1, i < m) →
      ∀ i ∈ (ps.foldl (process_part m) st).1, i < m := by
  intro ps
  induction ps with
  | nil =>
    intro st hst i h
    exact hst i h
  | cons p t ih =>
    intro st hst i h
    simp only [List.foldl_cons] at h
    refine ih (process_part m st p) ?_ i h
    intro j hj
    rcases process_part_mem hj with h1 | h1
    · exact hst j h1
    · exact h1

/-- C8: `parse_selection` on `"1,3,5-10"` with `max_index = 12` yields
exactly the 0-based indices {0,2,4,5,6,7,8,9} with no warnings; every
index it ever returns is in range (it is a total function — no
exception escapes, out-of-range entries are dropped), and an
out-of-range single index contributes only its warning, as on
`"1,15,3"`; and the `"all"` keyword of the interactive selection
selects exactly the indices of the papers whose `doi` is
(Python-truthily) present. -/
theorem C8_selection :
    parse_selection "1,3,5-10" 12 = ([0, 2, 4, 5, 6, 7, 8, 9], [])
    ∧ (∀ (s : String) (m i : Nat), i ∈ (parse_selection s m).1 → i < m)
    ∧ parse_selection "1,15,3" 12 =
        ([0, 2], ["Warning: Index 15 out of range (1-12), skipping"])
    ∧ (∀ (papers : List Paper) (i : Nat),
        i ∈ interactive_select_all papers ↔
          ∃ p, papers[i]? = some p ∧ pyTruthyOptStr p.doi = true) := by
  refine ⟨by decide, ?_, by decide, ?_⟩
  · intro s m i h
    unfold parse_selection at h
    exact foldl_process_part_mem m _ ([], []) (by intro j hj; simp at hj) i h
  · intro papers i
    simp only [interactive_select_all, List.mem_map, List.mem_filter]
    constructor
    · rintro ⟨⟨j, p⟩, ⟨hmem, hq⟩, hji⟩
      simp only at hji
      subst hji
      exact ⟨p, List.mk_mem_enum_iff_getElem?.mp hmem, hq⟩
    · rintro ⟨p, hp, hq⟩
      exact ⟨(i, p), ⟨List.mk_mem_enum_iff_getElem?.mpr hp, hq⟩, rfl⟩

/-- C8 witness: the in-range bound of the theorem at a concrete
selection string. -/
theorem C8_witness : 0 ∈ (parse_selection "1" 2).1 ∧ 0 < 2 :=
  ⟨by decide, C8_selection.2.1 "1" 2 0 (by decide)⟩

/-! ## Claim C4: year-range clauses -/

theorem pyIsSpace_digitChar (n : Nat) : pyIsSpace (Nat.digitChar n) = false := by
  rcases Nat.lt_or_ge n 16 with h | h
  · interval_cases n <;> decide
  · have h0 : Nat.digitChar n = '*' := by
      unfold Nat.digitChar
      rw [if_neg (show ¬(n = 0) by omega), if_neg (show ¬(n = 1) by omega),
        if_neg (show ¬(n = 2) by omega), if_neg (show ¬(n = 3) by omega),
        if_neg (show ¬(n = 4) by omega), if_neg (show ¬(n = 5) by omega),
        if_neg (show ¬(n = 6) by omega), if_neg (show ¬(n = 7) by omega),
        if_neg (show ¬(n = 8) by omega), if_neg (show ¬(n = 9) by omega),
        if_neg (show ¬(n = 10) by omega), if_neg (show ¬(n = 11) by omega),
        if_neg (show ¬(n = 12) by omega), if_neg (show ¬(n = 13) by omega),
        if_neg (show ¬(n = 14) by omega), if_neg (show ¬(n = 15) by omega)]
    rw [h0]
    decide

theorem mem_toDigitsCore {b : Nat} :
    ∀ (f n : Nat) (acc : List Char) (c : Char),
      c ∈ Nat.toDigitsCore b f n acc → (∃ m, c = Nat.digitChar m) ∨ c ∈ acc := by
  intro f
  induction f with
  | zero =>
    intro n acc c h
    exact Or.inr h
  | succ f ih =>
    intro n acc c h
    unfold Nat.toDigitsCore at h
    dsimp only at h
    split at h
    · rcases List.mem_cons.mp h with h1 | h1
      · exact Or.inl ⟨n % b, h1⟩
      · exact Or.inr h1
    · rcases ih _ _ c h with h1 | h1
      · exact Or.inl h1
      · rcases List.mem_cons.mp h1 with h2 | h2
        · exact Or.inl ⟨n % b, h2⟩
        · exact Or.inr h2

theorem toDigitsCore_ne_nil {b : Nat} :
    ∀ (f n : Nat) (acc : List Char), acc ≠ [] →
      Nat.toDigitsCore b f n acc ≠ [] := by
  intro f
  induction f with
  | zero =>
    intro n acc h
    exact h
  | succ f ih =>
    intro n acc h
    unfold Nat.toDigitsCore
    dsimp only
    split
    · exact List.cons_ne_nil _ _
    · exact ih _ _ (List.cons_ne_nil _ _)

theorem toDigits_ne_nil (b n : Nat) : Nat.toDigits b n ≠ [] := by
  unfold Nat.toDigits Nat.toDigitsCore
  dsimp only
  split
  · exact List.cons_ne_nil _ _
  · exact toDigitsCore_ne_nil _ _ _ (List.cons_ne_nil _ _)

theorem toString_nat_chars (n : Nat) :
    (toString n).toList ≠ [] ∧
      ∀ c ∈ (toString n).toList, pyIsSpace c = false := by
  have hd : (toString n).toList = Nat.toDigits 10 n := rfl
  rw [hd]
  refine ⟨toDigits_ne_nil 10 n, ?_⟩
  intro c hc
  rcases mem_toDigitsCore _ _ _ c hc with ⟨m, hm⟩ | h1
  · rw [hm]
    exact pyIsSpace_digitChar m
  · simp at h1

theorem toString_int_chars (n : Int) :
    (toString n).toList ≠ [] ∧
      ∀ c ∈ (toString n).toList, pyIsSpace c = false := by
  cases n with
  | ofNat m =>
    have h : toString (Int.ofNat m) = toString m := rfl
    rw [h]
    exact toString_nat_chars m
  | negSucc m =>
    have h : toString (Int.negSucc m) = "-" ++ toString (m + 1) := rfl
    have hd : ("-" ++ toString (m + 1)).toList =
      '-' :: (toString (m + 1)).toList := rfl
    rw [h, hd]
    refine ⟨List.cons_ne_nil _ _, ?_⟩
    intro c hc
    rcases List.mem_cons.mp hc with h1 | h1
    · rw [h1]
      decide
    · exact (toString_nat_chars (m + 1)).2 c h1

theorem pyStrip_one_space (t : String)
    (hh : ∀ c, t.toList.head? = some c → pyIsSpace c = false)
    (hl : ∀ c, t.toList.getLast? = some c → pyIsSpace c = false) :
    pyStrip (" " ++ t) = t := by
  unfold pyStrip pyStripChar
  rw [show (" " ++ t).toList = ' ' :: t.toList from rfl]
  rw [List.dropWhile_cons_of_pos (by decide)]
  rw [dropWhile_eq_self_of_head hh]
  rw [dropWhile_eq_self_of_head (l := t.toList.reverse)
    (fun c hc => hl c (by rwa [List.head?_reverse] at hc))]
  rw [List.reverse_reverse]
  rfl

theorem pyStrip_of_ends (t : String)
    (hh : t.toList.head? = some 'A')
    (hl : ∀ c, t.toList.getLast? = some c → pyIsSpace c = false) :
    pyStrip (" " ++ t) = t :=
  pyStrip_one_space t
    (fun c hc => by
      rw [hh] at hc
      cases hc
      decide) hl

theorem getLast?_append_toString (x : List Char) (n : Int) :
    (x ++ (toString n).toList).getLast? = (toString n).toList.getLast? := by
  rw [List.getLast?_append]
  cases hlast : (toString n).toList.getLast? with
  | none => exact absurd (List.getLast?_eq_none_iff.mp hlast) (toString_int_chars n).1
  | some c2 => rw [Option.or_some]

theorem lastChar_toString_not_space (n : Int) (c : Char)
    (hc : (toString n).toList.getLast? = some c) : pyIsSpace c = false :=
  (toString_int_chars n).2 c
    (List.mem_of_mem_getLast? (by simp only [Option.mem_def]; exact hc))

/-- C4 counterexample: with no other facets, `build()` produces the
year clauses with a dangling leading `AND ` (the code appends
`" AND PUBYEAR ..."` to the empty facet composition and `str.strip()`
removes only whitespace), so the claimed string without the leading
`AND ` is not returned. -/
theorem C4_counterexample :
    build (set_year_range (some 2020) (some 2020) {}) =
      "AND PUBYEAR > 2019 AND PUBYEAR < 2021"
    ∧ build (set_year_range (some 2020) (some 2020) {}) ≠
      "PUBYEAR > 2019 AND PUBYEAR < 2021" := by
  constructor
  · decide
  · decide

/-- C4 (amended): on a builder with no other facets and no raw
override and with Python-truthy (nonzero) bounds,
`set_year_range(yf, yt)` followed by `build()` yields
`"AND PUBYEAR > (yf-1) AND PUBYEAR < (yt+1)"` — strict-inequality
clauses one year outside the inclusive range, prefixed by the dangling
`AND ` left over from the empty facet composition — and with only one
bound set it yields only that side's clause (with the same `AND `
prefix); in particular `set_year_range(2020, 2020)` yields
`"AND PUBYEAR > 2019 AND PUBYEAR < 2021"`. -/
theorem C4_year_range (yf yt : Int) (hf : yf ≠ 0) (ht : yt ≠ 0) :
    build (set_year_range (some yf) (some yt) {}) =
      "AND PUBYEAR > " ++ toString (yf - 1) ++ " AND PUBYEAR < " ++ toString (yt + 1)
    ∧ build (set_year_range (some yf) none {}) =
      "AND PUBYEAR > " ++ toString (yf - 1)
    ∧ build (set_year_range none (some yt) {}) =
      "AND PUBYEAR < " ++ toString (yt + 1) := by
  refine ⟨?_, ?_, ?_⟩
  · have h1 : build (set_year_range (some yf) (some yt) {}) =
        pyStrip (" " ++ ("AND PUBYEAR > " ++ toString (yf - 1) ++
          " AND PUBYEAR < " ++ toString (yt + 1))) := by
      have hj : String.join ([] : List String) = "" := rfl
      simp [build, set_year_range, buildParts, exclusionClauses, yearClause,
        pyTruthyOptStr, pyTruthyOptInt, hf, ht, String.intercalate, hj]
      rfl
    rw [h1]
    apply pyStrip_of_ends
    · rfl
    · intro c hc
      rw [show ("AND PUBYEAR > " ++ toString (yf - 1) ++
          " AND PUBYEAR < " ++ toString (yt + 1)).toList =
        ("AND PUBYEAR > ".toList ++ (toString (yf - 1)).toList ++
          " AND PUBYEAR < ".toList) ++ (toString (yt + 1)).toList from rfl] at hc
      rw [getLast?_append_toString] at hc
      exact lastChar_toString_not_space _ c hc
  · have h1 : build (set_year_range (some yf) none {}) =
        pyStrip (" " ++ ("AND PUBYEAR > " ++ toString (yf - 1))) := by
      have hj : String.join ([] : List String) = "" := rfl
      simp [build, set_year_range, buildParts, exclusionClauses, yearClause,
        pyTruthyOptStr, pyTruthyOptInt, hf, String.intercalate, hj]
      rfl
    rw [h1]
    apply pyStrip_of_ends
    · rfl
    · intro c hc
      rw [show ("AND PUBYEAR > " ++ toString (yf - 1)).toList =
        "AND PUBYEAR > ".toList ++ (toString (yf - 1)).toList from rfl] at hc
      rw [getLast?_append_toString] at hc
      exact lastChar_toString_not_space _ c hc
  · have h1 : build (set_year_range none (some yt) {}) =
        pyStrip (" " ++ ("AND PUBYEAR < " ++ toString (yt + 1))) := by
      have hj : String.join ([] : List String) = "" := rfl
      simp [build, set_year_range, buildParts, exclusionClauses, yearClause,
        pyTruthyOptStr, pyTruthyOptInt, ht, String.intercalate, hj]
      rfl
    rw [h1]
    apply pyStrip_of_ends
    · rfl
    · intro c hc
      rw [show ("AND PUBYEAR < " ++ toString (yt + 1)).toList =
        "AND PUBYEAR < ".toList ++ (toString (yt + 1)).toList from rfl] at hc
      rw [getLast?_append_toString] at hc
      exact lastChar_toString_not_space _ c hc

/-- C4 witness: the amended claim at the spec's concrete years. -/
theorem C4_witness :
    build (set_year_range (some 2020) (some 2020) {}) =
      "AND PUBYEAR > 2019 AND PUBYEAR < 2021"
    ∧ build (set_year_range (some 2020) none {}) = "AND PUBYEAR > 2019" := by
  have h := C4_year_range 2020 2020 (by decide) (by decide)
  constructor
  · rw [h.1]
    decide
  · rw [h.2.1]
    decide

/-! ## Claim C10: sanitize_filename -/

theorem keepChar_not_illegal {c : Char} (hk : keepChar c = true) :
    illegalChar c = false := by
  by_contra hi
  rw [Bool.not_eq_false] at hi
  simp only [illegalChar, Bool.or_eq_true, decide_eq_true_eq] at hi
  rcases hi with ((((((((h | h) | h) | h) | h) | h) | h) | h) | h) <;> subst h <;>
    exact absurd hk (by decide)

theorem keepChar_not_space {c : Char} (hk : keepChar c = true) :
    pyIsSpace c = false := by
  by_contra hs
  rw [Bool.not_eq_false] at hs
  simp only [pyIsSpace, Bool.or_eq_true, decide_eq_true_eq] at hs
  rcases hs with (((((h | h) | h) | h) | h) | h) <;> subst h <;>
    exact absurd hk (by decide)

theorem collapseWsAux_id :
    ∀ (b : Bool) (l : List Char), (∀ c ∈ l, pyIsSpace c = false) →
      collapseWsAux b l = l := by
  intro b l
  induction l generalizing b with
  | nil => intro _; rfl
  | cons c t ih =>
    intro h
    have hc := h c (List.mem_cons_self c t)
    simp only [collapseWsAux, hc, Bool.false_eq_true, if_false]
    rw [ih false (fun x hx => h x (List.mem_cons_of_mem c hx))]

theorem truncStrip_mem {p : Char → Bool} {m : Int} {s3 : List Char} {c : Char}
    (h : c ∈ pyStripChar p (if (s3.length : Int) > m then pySliceTo m s3 else s3)) :
    c ∈ s3 := by
  have h1 := mem_pyStripChar h
  by_cases hl : (s3.length : Int) > m
  · rw [if_pos hl] at h1
    unfold pySliceTo at h1
    split at h1
    · exact List.take_subset _ _ h1
    · exact List.take_subset _ _ h1
  · rw [if_neg hl] at h1
    exact h1

theorem truncStrip_length_le (p : Char → Bool) (m : Int) (s3 : List Char)
    (hm : 0 ≤ m) :
    ((pyStripChar p (if (s3.length : Int) > m then pySliceTo m s3 else s3)).length : Int) ≤ m := by
  have hstrip : ∀ l : List Char, (pyStripChar p l).length ≤ l.length := by
    intro l
    unfold pyStripChar
    calc ((l.dropWhile p).reverse.dropWhile p).reverse.length
        = ((l.dropWhile p).reverse.dropWhile p).length := List.length_reverse _
      _ ≤ (l.dropWhile p).reverse.length := (List.dropWhile_sublist p).length_le
      _ = (l.dropWhile p).length := List.length_reverse _
      _ ≤ l.length := (List.dropWhile_sublist p).length_le
  by_cases hl : (s3.length : Int) > m
  · rw [if_pos hl]
    have h1 := hstrip (pySliceTo m s3)
    have h2 : (pySliceTo m s3).length ≤ m.toNat := by
      unfold pySliceTo
      rw [if_pos hm]
      exact List.length_take_le m.toNat s3
    omega
  · rw [if_neg hl]
    have h1 := hstrip s3
    omega

theorem sanitize_length_le (title : String) (m : Int) (hm : 0 ≤ m) :
    ((sanitize_filename title m).length : Int) ≤ m :=
  truncStrip_length_le (fun c => decide (c = '_')) m
    ((collapseWsAux false (title.toList.filter (fun c => !illegalChar c))).filter keepChar) hm

theorem sanitize_mem (title : String) (m : Int) {c : Char}
    (hc : c ∈ (sanitize_filename title m).toList) : keepChar c = true := by
  have h1 : c ∈ (collapseWsAux false
      (title.toList.filter (fun x => !illegalChar x))).filter keepChar :=
    truncStrip_mem hc
  exact (List.mem_filter.mp h1).2

theorem sanitize_filename_mk (title : String) (m : Int) :
    sanitize_filename title m = String.mk (pyStripChar (fun c => decide (c = '_'))
      (if (((collapseWsAux false (title.toList.filter (fun c => !illegalChar c))).filter keepChar).length : Int) > m then
        pySliceTo m ((collapseWsAux false (title.toList.filter (fun c => !illegalChar c))).filter keepChar)
      else (collapseWsAux false (title.toList.filter (fun c => !illegalChar c))).filter keepChar)) := rfl

theorem sanitize_head (title : String) (m : Int) :
    (sanitize_filename title m).toList.head? ≠ some '_' := by
  intro h
  rw [sanitize_filename_mk] at h
  have h1 := head?_pyStripChar (show (pyStripChar (fun c => decide (c = '_'))
    (if (((collapseWsAux false (title.toList.filter (fun c => !illegalChar c))).filter keepChar).length : Int) > m then
      pySliceTo m ((collapseWsAux false (title.toList.filter (fun c => !illegalChar c))).filter keepChar)
    else (collapseWsAux false (title.toList.filter (fun c => !illegalChar c))).filter keepChar)).head? = some '_' from h)
  simp at h1

theorem sanitize_last (title : String) (m : Int) :
    (sanitize_filename title m).toList.getLast? ≠ some '_' := by
  intro h
  rw [sanitize_filename_mk] at h
  have h1 := getLast?_pyStripChar (show (pyStripChar (fun c => decide (c = '_'))
    (if (((collapseWsAux false (title.toList.filter (fun c => !illegalChar c))).filter keepChar).length : Int) > m then
      pySliceTo m ((collapseWsAux false (title.toList.filter (fun c => !illegalChar c))).filter keepChar)
    else (collapseWsAux false (title.toList.filter (fun c => !illegalChar c))).filter keepChar)).getLast? = some '_' from h)
  simp at h1

theorem sanitize_idem (title : String) (m : Int) (hm : 0 ≤ m) :
    sanitize_filename (sanitize_filename title m) m = sanitize_filename title m := by
  have hchars : ∀ c ∈ (sanitize_filename title m).toList, keepChar c = true :=
    fun c hc => sanitize_mem title m hc
  have hlen := sanitize_length_le title m hm
  have hhead := sanitize_head title m
  have hlast := sanitize_last title m
  have h1 : (sanitize_filename title m).toList.filter (fun c => !illegalChar c) =
      (sanitize_filename title m).toList :=
    List.filter_eq_self.mpr (fun c hc => by
      rw [keepChar_not_illegal (hchars c hc)]
      rfl)
  have h2 : collapseWsAux false (sanitize_filename title m).toList =
      (sanitize_filename title m).toList :=
    collapseWsAux_id false _ (fun c hc => keepChar_not_space (hchars c hc))
  have h3 : (sanitize_filename title m).toList.filter keepChar =
      (sanitize_filename title m).toList :=
    List.filter_eq_self.mpr (fun c hc => hchars c hc)
  rw [sanitize_filename_mk (sanitize_filename title m) m]
  rw [h1, h2, h3]
  have hguard : ¬(((sanitize_filename title m).toList.length : Int) > m) := by
    have hl : (sanitize_filename title m).toList.length =
      (sanitize_filename title m).length := rfl
    rw [hl]
    omega
  rw [if_neg hguard]
  have h4 : pyStripChar (fun c => decide (c = '_'))
      (sanitize_filename title m).toList = (sanitize_filename title m).toList := by
    apply pyStripChar_eq_self
    · intro c hc
      rcases eq_or_ne c '_' with h | h
      · subst h
        exact absurd hc hhead
      · simp [h]
    · intro c hc
      rcases eq_or_ne c '_' with h | h
      · subst h
        exact absurd hc hlast
      · simp [h]
  rw [h4]
  rfl

/-- C10 counterexample: `max_length` is a Python `int`, and for a
negative value the claim fails: with `max_length = -1` the slice
`filename[:max_length]` drops characters from the end instead of
bounding the length, so `sanitize_filename("ab", -1) = "a"` has length
1 > -1, and a second application gives `""`, breaking idempotence. -/
theorem C10_counterexample :
    ¬(((sanitize_filename "ab" (-1)).length : Int) ≤ -1)
    ∧ sanitize_filename "ab" (-1) = "a"
    ∧ sanitize_filename (sanitize_filename "ab" (-1)) (-1) = ""
    ∧ sanitize_filename (sanitize_filename "ab" (-1)) (-1) ≠
      sanitize_filename "ab" (-1) := by
  refine ⟨by decide, by decide, by decide, by decide⟩

/-- C10 (amended): for every title string and every NON-NEGATIVE
`max_length`, `sanitize_filename` returns a string of length at most
`max_length` whose characters all lie in the kept class (word
characters, hyphen, dot) — in particular it contains no whitespace —
with no leading or trailing underscore, and the function is idempotent:
applying it to its own output (with the same `max_length`) returns the
output unchanged. -/
theorem C10_sanitize_filename (title : String) (m : Int) (hm : 0 ≤ m) :
    ((sanitize_filename title m).length : Int) ≤ m
    ∧ (∀ c ∈ (sanitize_filename title m).toList,
        keepChar c = true ∧ pyIsSpace c = false)
    ∧ (sanitize_filename title m).toList.head? ≠ some '_'
    ∧ (sanitize_filename title m).toList.getLast? ≠ some '_'
    ∧ sanitize_filename (sanitize_filename title m) m = sanitize_filename title m :=
  ⟨sanitize_length_le title m hm,
   fun _ hc => ⟨sanitize_mem title m hc,
     keepChar_not_space (sanitize_mem title m hc)⟩,
   sanitize_head title m,
   sanitize_last title m,
   sanitize_idem title m hm⟩

/-- C10 witness: the amended claim at the concrete title
`"My Paper: A Study?"` and the default maximum length 100. -/
theorem C10_witness :
    (0 : Int) ≤ 100
    ∧ sanitize_filename "My Paper: A Study?" 100 = "My_Paper_A_Study"
    ∧ sanitize_filename (sanitize_filename "My Paper: A Study?" 100) 100 =
        sanitize_filename "My Paper: A Study?" 100 :=
  ⟨by decide, by decide,
   (C10_sanitize_filename "My Paper: A Study?" 100 (by decide)).2.2.2.2⟩
